import Mathlib

/-!
Verification of the gorouter request-pipeline components: the proxy dispatch
and director logic (`proxy/proxy.go`), the sticky-session cookie logic, the
metrics reporter (`metrics/metrics_reporter.go`), and the retrying
round-tripper contract.  Go functions are shallowly embedded as executable
Lean definitions; machine strings are Lean `String`s, Go `int` is `Int`,
Go maps are association lists with unique keys.
-/

namespace Gorouter

/-! ### Models of the Go `strings` package functions used by the source -/

/-- ASCII lower-casing of one character (the `Connection`/`Upgrade` header
values the code lowers are ASCII). Models `unicode.ToLower` on that domain. -/
def asciiLower (c : Char) : Char :=
  if 'A' ≤ c ∧ c ≤ 'Z' then Char.ofNat (c.toNat + 32) else c

/-- Models `strings.ToLower`. -/
def goToLower (s : String) : String :=
  String.mk (s.data.map asciiLower)

/-- `containsSub needle hay = true` iff `needle` occurs contiguously in `hay`. -/
def containsSub (needle : List Char) : List Char → Bool
  | [] => needle.isEmpty
  | a :: t => needle.isPrefixOf (a :: t) || containsSub needle t

/-- Models `strings.Contains s sub`. -/
def goContains (s sub : String) : Bool :=
  containsSub sub.data s.data

/-- Models `strings.HasPrefix s pre`. -/
def goHasPre (s pre : String) : Bool :=
  pre.data.isPrefixOf s.data

/-- Models Go's truncating (toward zero) integer division `a / b` for a
positive divisor `b`; Lean's `Int` division instead rounds toward
negative infinity, so the Go operator is spelled out. -/
def goDiv (a : Int) (b : Nat) : Int :=
  if 0 ≤ a then ((a.toNat / b : Nat) : Int) else -(((-a).toNat / b : Nat) : Int)

/-! ### net/http header model

`http.Header` is a Go map from canonical header names to value slices.
Keys are stored canonicalized (as `net/http` does); `get`, `set` and `del`
mirror `Header.Get`, `Header.Set` and `Header.Del`. -/

structure Headers where
  entries : List (String × List String)
deriving DecidableEq

/-- Models `Header.Get`: first value under the key, or `""`. -/
def Headers.get (h : Headers) (k : String) : String :=
  match h.entries.find? (fun p => p.1 == k) with
  | some p =>
    match p.2 with
    | v :: _ => v
    | [] => ""
  | none => ""

/-- Models the Go map lookup `header[k]` (all values under the key). -/
def Headers.getValues (h : Headers) (k : String) : List String :=
  match h.entries.find? (fun p => p.1 == k) with
  | some p => p.2
  | none => []

/-- Models `Header.Set`: replace all values under the key by one value. -/
def Headers.set (h : Headers) (k v : String) : Headers :=
  ⟨(k, [v]) :: h.entries.filter (fun p => !(p.1 == k))⟩

/-- Models `Header.Del`. -/
def Headers.del (h : Headers) (k : String) : Headers :=
  ⟨h.entries.filter (fun p => !(p.1 == k))⟩

/-! ### Upgrade dispatch (`proxy.go`: `upgradeHeader`, `isTcpUpgrade`,
`isWebSocketUpgrade`, and the branch order in `proxy.ServeHTTP`) -/

def connectionKey : String := "Connection"

def upgradeKey : String := "Upgrade"

/-- `upgradeHeader` from `proxy.go`: scan every `Connection` field-value;
on the first one containing `upgrade` (case-insensitively) return the
`Upgrade` header, else return `""`. -/
def upgradeHeader (h : Headers) : String :=
  if (h.getValues connectionKey).any (fun v => goContains (goToLower v) "upgrade") then
    h.get upgradeKey
  else ""

/-- `isWebSocketUpgrade` from `proxy.go`. -/
def isWebSocketUpgrade (h : Headers) : Bool :=
  goToLower (upgradeHeader h) == "websocket"

/-- `isTcpUpgrade` from `proxy.go` (note: case-sensitive comparison). -/
def isTcpUpgrade (h : Headers) : Bool :=
  upgradeHeader h == "tcp"

inductive Dispatch where
  | tcp
  | websocket
  | reverseProxy
deriving DecidableEq

/-- The branch order of `proxy.ServeHTTP`: TCP tunnel first, then
WebSocket, else fall through to the reverse proxy stage. -/
def dispatch (h : Headers) : Dispatch :=
  if isTcpUpgrade h then Dispatch.tcp
  else if isWebSocketUpgrade h then Dispatch.websocket
  else Dispatch.reverseProxy

/-- The dispatch function as claim C5 words it: the WebSocket branch is
conditioned only on the `Upgrade` header value, without requiring the
`Connection` header to contain `upgrade`. -/
def dispatchClaimC5 (h : Headers) : Dispatch :=
  if (h.getValues connectionKey).any (fun v => goContains (goToLower v) "upgrade")
      && (h.get upgradeKey == "tcp") then Dispatch.tcp
  else if goToLower (h.get upgradeKey) == "websocket" then Dispatch.websocket
  else Dispatch.reverseProxy

/-- The dispatch function as the amended claim words it: the WebSocket
branch additionally requires a `Connection` value containing `upgrade`. -/
def dispatchClaimC5Amended (h : Headers) : Dispatch :=
  if (h.getValues connectionKey).any (fun v => goContains (goToLower v) "upgrade")
      && (h.get upgradeKey == "tcp") then Dispatch.tcp
  else if (h.getValues connectionKey).any (fun v => goContains (goToLower v) "upgrade")
      && (goToLower (h.get upgradeKey) == "websocket") then Dispatch.websocket
  else Dispatch.reverseProxy

/-- A request carrying `Upgrade: websocket` but no `Connection: upgrade`. -/
def websocketNoConnHeaders : Headers :=
  ⟨[(upgradeKey, ["websocket"])]⟩

/-! ### Reverse-proxy director (`proxy.go`: `setupProxyRequest`) -/

structure GoURL where
  scheme : String
  host : String
  opaq : String
  rawQuery : String
deriving DecidableEq

structure Request where
  headers : Headers
  url : GoURL
  host : String
  requestURI : String
  tls : Bool
deriving DecidableEq

def xfpKey : String := "X-Forwarded-Proto"

def cfAppInstanceKey : String := "X-Cf-App-Instance"

/-- `setupProxyRequest` from `proxy.go`, as a function on the target
request.  (`SetRequestXRequestStart` touches only the source request and
is outside the claims considered here.) -/
def setupProxyRequest (forceForwardedProtoHttps : Bool) (source target : Request) : Request :=
  let target1 :=
    if forceForwardedProtoHttps then
      { target with headers := target.headers.set xfpKey "https" }
    else if source.headers.get xfpKey == "" then
      let scheme := if source.tls then "https" else "http"
      { target with headers := target.headers.set xfpKey scheme }
    else target
  let target2 := { target1 with
    url := { scheme := "http", host := source.host,
             opaq := source.requestURI, rawQuery := "" } }
  { target2 with headers := target2.headers.del cfAppInstanceKey }

/-! ### Sticky sessions (`proxy.go`: `setupStickySession`, `getStickySession`) -/

structure Cookie where
  name : String
  value : String
  path : String
  maxAge : Int
  httpOnly : Bool
  secure : Bool
deriving DecidableEq

def vcapCookieId : String := "__VCAP_ID__"

def stickyCookieKey : String := "JSESSIONID"

/-- `setupStickySession` from `proxy.go`.  The Go loop over
`response.Cookies()` breaks at the first `JSESSIONID` cookie, which is
`List.find?`; the emitted `Set-Cookie` (if any) is returned instead of
being written to the response writer. -/
def setupStickySession (responseCookies : List Cookie)
    (endpointPrivateInstanceId originalEndpointId : String)
    (secureCookies : Bool) (path : String) : Option Cookie :=
  let stickyInit := !(originalEndpointId == "") && !(originalEndpointId == endpointPrivateInstanceId)
  let jsession := responseCookies.find? (fun v => v.name == stickyCookieKey)
  let sticky := stickyInit || jsession.isSome
  let maxAge : Int :=
    match jsession with
    | some v => if v.maxAge < 0 then v.maxAge else 0
    | none => 0
  let secure0 : Bool :=
    match jsession with
    | some v => v.secure
    | none => false
  if sticky then
    some { name := vcapCookieId, value := endpointPrivateInstanceId, path := path,
           maxAge := maxAge, httpOnly := true, secure := secure0 || secureCookies }
  else none

/-- `getStickySession` from `proxy.go`: the preferred instance identifier
recovered from the request cookies. -/
def getStickySession (requestCookies : List Cookie) : String :=
  match requestCookies.find? (fun c => c.name == stickyCookieKey) with
  | some _ =>
    match requestCookies.find? (fun c => c.name == vcapCookieId) with
    | some sticky => sticky.value
    | none => ""
  | none => ""

/-! ### Metrics reporter (`metrics/metrics_reporter.go`)

Each capture function is embedded as the list of counter names it
increments (in order), which is the whole observable effect of the
`BatchIncrementCounter` calls it makes. -/

structure Endpoint where
  privateInstanceId : String := ""
  tags : List (String × String) := []
  routeServiceUrl : String := ""
deriving DecidableEq

/-- The Go map lookup `endpoint.Tags["component"]`. -/
def componentTag (e : Endpoint) : Option String :=
  (e.tags.find? (fun p => p.1 == "component")).map (fun p => p.2)

/-- `MetricsReporter.CaptureBadRequest`. -/
def captureBadRequest : List String :=
  ["rejected_requests"]

/-- `MetricsReporter.CaptureBadGateway`. -/
def captureBadGateway : List String :=
  ["bad_gateways"]

/-- `MetricsReporter.CaptureRoutingRequest`. -/
def captureRoutingRequest (e : Endpoint) : List String :=
  ["total_requests"] ++
    (match e.tags.find? (fun p => p.1 == "component") with
     | some p =>
       if 0 < p.2.length then
         ["requests." ++ p.2] ++
           (if goHasPre p.2 "dea-" then ["routed_app_requests"] else [])
       else []
     | none => [])

structure HTTPResponse where
  statusCode : Int
deriving DecidableEq

/-- `getResponseCounterName` from `metrics_reporter.go`; `none` models a
nil `*http.Response`. -/
def getResponseCounterName (res : Option HTTPResponse) : String :=
  let statusCode : Int :=
    match res with
    | some r => goDiv r.statusCode 100
    | none => 0
  if 2 ≤ statusCode ∧ statusCode ≤ 5 then toString statusCode ++ "xx" else "xxx"

/-- `MetricsReporter.CaptureRoutingResponse`. -/
def captureRoutingResponse (res : Option HTTPResponse) : List String :=
  ["responses." ++ getResponseCounterName res, "responses"]

/-- `MetricsReporter.CaptureRouteServiceResponse`. -/
def captureRouteServiceResponse (res : Option HTTPResponse) : List String :=
  ["responses.route_services." ++ getResponseCounterName res, "responses.route_services"]

/-- An endpoint with no tags at all (as built by the round-tripper tests). -/
def bareEndpoint : Endpoint :=
  { privateInstanceId := "", tags := [], routeServiceUrl := "" }

/-- An endpoint whose `component` tag is present but empty. -/
def emptyComponentEndpoint : Endpoint :=
  { privateInstanceId := "", tags := [("component", "")], routeServiceUrl := "" }

/-- An endpoint whose `component` tag starts with `dea-`. -/
def deaEndpoint : Endpoint :=
  { privateInstanceId := "", tags := [("component", "dea-1")], routeServiceUrl := "" }

/-! ### Retrying round-tripper (claims C1–C3)

Modelled from the spec: the repository snapshot under `src/` holds only the
test file `proxy/round_tripper/proxy_round_tripper_test.go`; the
implementation `round_tripper.NewProxyRoundTripper` / `RoundTrip` is not
included.  The model below follows spec §4.3 (Retrying Round-Tripper):
3 attempts maximum; each backend attempt advances the iterator and fails
with the `NoEndpointsAvailable` sentinel when the iterator is exhausted;
a retry happens exactly on a retriable error (dial-phase failure or
connection reset on read), with `EndpointFailed` called before retrying;
in route-service mode the iterator is never advanced, `EndpointFailed` is
never called, and the request (in particular its `X-CF-Forwarded-Url`
header) is not mutated.  The transport is a function from the attempt
number to that attempt's outcome; the iterator is a function from the
`Next`-call number to the endpoint it yields. -/

inductive TransportErr where
  | dialError
  | connectionReset
  | other
deriving DecidableEq

/-- Spec §4.3 and glossary: a retriable error is a connect-phase (dial)
failure or a TCP connection reset on read. -/
def retriable : TransportErr → Bool
  | TransportErr.dialError => true
  | TransportErr.connectionReset => true
  | TransportErr.other => false

inductive RoundTripError where
  | noEndpoints
  | transport (e : TransportErr)
deriving DecidableEq

structure RoundTripOutcome where
  response : Option HTTPResponse
  rtError : Option RoundTripError
  nextCalls : Nat
  endpointFailedCalls : Nat
  finalRequest : Headers
deriving DecidableEq

def maxRetries : Nat := 3

/-- Modelled from the spec: the backend-mode retry loop of
`ProxyRoundTripper.RoundTrip` (spec §4.3), with the remaining attempt
budget as fuel and the running `Next`/`EndpointFailed` call counts. -/
def backendLoop (iter : Nat → Option Endpoint)
    (transport : Nat → Except TransportErr HTTPResponse) (req : Headers) :
    Nat → Nat → Nat → RoundTripOutcome
  | 0, nexts, fails => ⟨none, none, nexts, fails, req⟩
  | fuel + 1, nexts, fails =>
    match iter nexts with
    | none => ⟨none, some RoundTripError.noEndpoints, nexts + 1, fails, req⟩
    | some _ =>
      match transport nexts with
      | Except.ok resp => ⟨some resp, none, nexts + 1, fails, req⟩
      | Except.error e =>
        if retriable e then
          match fuel with
          | 0 => ⟨none, some (RoundTripError.transport e), nexts + 1, fails + 1, req⟩
          | _ + 1 => backendLoop iter transport req fuel (nexts + 1) (fails + 1)
        else ⟨none, some (RoundTripError.transport e), nexts + 1, fails, req⟩

/-- Modelled from the spec: backend-mode `RoundTrip`. -/
def backendRoundTrip (iter : Nat → Option Endpoint)
    (transport : Nat → Except TransportErr HTTPResponse) (req : Headers) : RoundTripOutcome :=
  backendLoop iter transport req maxRetries 0 0

/-- Modelled from the spec: the route-service-mode retry loop: same
attempt budget and retriable-error classification, but the iterator is
never advanced, `EndpointFailed` is never called, and the request is
passed to every attempt unchanged. -/
def routeServiceLoop (transport : Nat → Except TransportErr HTTPResponse) (req : Headers) :
    Nat → Nat → RoundTripOutcome
  | 0, _ => ⟨none, none, 0, 0, req⟩
  | fuel + 1, attempt =>
    match transport attempt with
    | Except.ok resp => ⟨some resp, none, 0, 0, req⟩
    | Except.error e =>
      if retriable e then
        match fuel with
        | 0 => ⟨none, some (RoundTripError.transport e), 0, 0, req⟩
        | _ + 1 => routeServiceLoop transport req fuel (attempt + 1)
      else ⟨none, some (RoundTripError.transport e), 0, 0, req⟩

/-- Modelled from the spec: route-service-mode `RoundTrip`. -/
def routeServiceRoundTrip (transport : Nat → Except TransportErr HTTPResponse)
    (req : Headers) : RoundTripOutcome :=
  routeServiceLoop transport req maxRetries 0

/-- Modelled from the spec: `RoundTrip` dispatching on the
`servingBackend` construction flag. -/
def proxyRoundTrip (servingBackend : Bool) (iter : Nat → Option Endpoint)
    (transport : Nat → Except TransportErr HTTPResponse) (req : Headers) : RoundTripOutcome :=
  if servingBackend then backendRoundTrip iter transport req
  else routeServiceRoundTrip transport req

def forwardedUrlKey : String := "X-CF-Forwarded-Url"

/-! ### Host truncation (`proxy.go`: `hostWithoutPort`) -/

/-- Models `strings.Index s c`: index of the first occurrence, `-1` when
absent. -/
def goIndex (s : List Char) (c : Char) : Int :=
  match s with
  | [] => -1
  | a :: t =>
    if a == c then 0
    else
      let r := goIndex t c
      if r < 0 then -1 else r + 1

/-- `hostWithoutPort` from `proxy.go`: truncate the `Host` value at the
first `:` (the hosts in play are ASCII, so the byte index used by the Go
slice coincides with the character index). -/
def hostWithoutPort (host : List Char) : List Char :=
  let pos := goIndex host ':'
  if 0 ≤ pos then host.take pos.toNat else host

/-! ## Helper lemmas -/

theorem find?_filter_of_imp {α : Type} (l : List α) (p q : α → Bool)
    (h : ∀ a, p a = true → q a = true) : (l.filter q).find? p = l.find? p := by
  induction l with
  | nil => rfl
  | cons a t ih =>
    cases hq : q a with
    | false =>
      have hp : p a = false := by
        cases hpa : p a
        · rfl
        · rw [h a hpa] at hq
          exact absurd hq (by simp)
      simp [List.filter_cons, hq, List.find?_cons, hp, ih]
    | true =>
      cases hp : p a with
      | false => simp [List.filter_cons, hq, List.find?_cons, hp, ih]
      | true => simp [List.filter_cons, hq, List.find?_cons, hp]

theorem find?_filter_not_self {α : Type} (l : List α) (p : α → Bool) :
    (l.filter (fun a => !(p a))).find? p = none := by
  rw [List.find?_eq_none]
  intro x hx
  have h2 := (List.mem_filter.mp hx).2
  simp only [Bool.not_eq_true'] at h2
  simp [h2]

theorem Headers.get_set_self (h : Headers) (k v : String) : (h.set k v).get k = v := by
  simp [Headers.set, Headers.get, List.find?_cons]

theorem Headers.get_del_ne (h : Headers) (k k' : String) (hne : k ≠ k') :
    (h.del k').get k = h.get k := by
  have e := find?_filter_of_imp h.entries (fun p => p.1 == k) (fun p => !(p.1 == k'))
    (by
      intro a ha
      have h1 : a.1 = k := by simpa using ha
      simp [h1, hne])
  simp [Headers.del, Headers.get, e]

theorem Headers.getValues_del_self (h : Headers) (k : String) : (h.del k).getValues k = [] := by
  have e := find?_filter_not_self h.entries (fun p => p.1 == k)
  simp [Headers.del, Headers.getValues, e]

theorem getResponseCounterName_some (r : HTTPResponse) :
    getResponseCounterName (some r) =
      (if 2 ≤ goDiv r.statusCode 100 ∧ goDiv r.statusCode 100 ≤ 5 then
        toString (goDiv r.statusCode 100) ++ "xx"
      else "xxx") := rfl

theorem routeServiceLoop_invariant (transport : Nat → Except TransportErr HTTPResponse)
    (req : Headers) : ∀ fuel attempt,
    (routeServiceLoop transport req fuel attempt).nextCalls = 0 ∧
    (routeServiceLoop transport req fuel attempt).endpointFailedCalls = 0 ∧
    (routeServiceLoop transport req fuel attempt).finalRequest = req := by
  intro fuel
  induction fuel with
  | zero => exact fun _ => ⟨rfl, rfl, rfl⟩
  | succ n ih =>
    intro attempt
    cases htr : transport attempt with
    | ok resp => simp [routeServiceLoop, htr]
    | error e =>
      cases hre : retriable e with
      | false => simp [routeServiceLoop, htr, hre]
      | true =>
        cases n with
        | zero => simp [routeServiceLoop, htr, hre]
        | succ m => simpa [routeServiceLoop, htr, hre] using ih (attempt + 1)

theorem hostWithoutPort_eq_takeWhile (host : List Char) :
    hostWithoutPort host = host.takeWhile (fun c => !(c == ':')) := by
  induction host with
  | nil => rfl
  | cons a t ih =>
    by_cases ha : a = ':'
    · subst ha
      simp [hostWithoutPort, goIndex, List.takeWhile_cons]
    · have ha' : (a == ':') = false := by simp [ha]
      by_cases hr : goIndex t ':' < 0
      · have h1 : hostWithoutPort t = t := by
          simp [hostWithoutPort, show ¬(0 ≤ goIndex t ':') from by omega]
        have h2 : hostWithoutPort (a :: t) = a :: t := by
          simp [hostWithoutPort, goIndex, ha', hr, show ¬((0 : Int) ≤ -1) from by omega]
        rw [h2, List.takeWhile_cons, ha']
        simp [← ih, h1]
      · have hr' : 0 ≤ goIndex t ':' := by omega
        have h1 : hostWithoutPort t = t.take (goIndex t ':').toNat := by
          simp [hostWithoutPort, hr']
        have h2 : hostWithoutPort (a :: t) = a :: t.take (goIndex t ':').toNat := by
          have ht : (goIndex t ':' + 1).toNat = (goIndex t ':').toNat + 1 := by omega
          simp [hostWithoutPort, goIndex, ha', show ¬(goIndex t ':' < 0) from hr,
            show (0 : Int) ≤ goIndex t ':' + 1 from by omega, ht]
        rw [h2, List.takeWhile_cons, ha']
        simp [← ih, h1]

/-! ## Claim theorems -/

/-- C4: `setupStickySession` writes a `__VCAP_ID__` cookie iff the upstream
response carries a `JSESSIONID` cookie or a non-empty preferred identifier
differs from the chosen endpoint's private instance identifier; the cookie
carries the endpoint's private instance identifier, `HttpOnly=true`,
`MaxAge` copied from the (first) upstream `JSESSIONID` cookie only when
negative (else `0`), and `Secure=true` exactly when that cookie is secure
or `secureCookies` is configured. -/
theorem setupStickySession_contract (cs : List Cookie) (eid oid : String)
    (sc : Bool) (path : String) :
    setupStickySession cs eid oid sc path =
      (if (∃ v ∈ cs, v.name = stickyCookieKey) ∨ (oid ≠ "" ∧ oid ≠ eid) then
        some { name := vcapCookieId, value := eid, path := path,
               maxAge := (match cs.find? (fun v => v.name == stickyCookieKey) with
                          | some v => if v.maxAge < 0 then v.maxAge else 0
                          | none => 0),
               httpOnly := true,
               secure := ((match cs.find? (fun v => v.name == stickyCookieKey) with
                           | some v => v.secure
                           | none => false) || sc) }
      else none) := by
  cases hj : cs.find? (fun v => v.name == stickyCookieKey) with
  | none =>
    have hex : ¬ ∃ v ∈ cs, v.name = stickyCookieKey := by
      rw [List.find?_eq_none] at hj
      rintro ⟨v, hv, hname⟩
      exact (hj v hv) (by simpa using hname)
    by_cases h0 : oid = ""
    · simp [setupStickySession, hj, hex, h0]
    · by_cases h1 : oid = eid
      · simp [setupStickySession, hj, hex, h0, h1]
      · simp [setupStickySession, hj, hex, h0, h1]
  | some v =>
    have hex : ∃ u ∈ cs, u.name = stickyCookieKey :=
      ⟨v, List.mem_of_find?_eq_some hj, by simpa using List.find?_some hj⟩
    simp [setupStickySession, hj, hex]

/-- C5 counterexample: a request carrying `Upgrade: websocket` but no
`Connection` header containing `upgrade` falls through to the reverse
proxy stage, while the claim's reading of the dispatch routes it to the
WebSocket path. -/
theorem dispatch_claimC5_counterexample :
    dispatch websocketNoConnHeaders = Dispatch.reverseProxy ∧
    dispatchClaimC5 websocketNoConnHeaders = Dispatch.websocket ∧
    decide (dispatch websocketNoConnHeaders = dispatchClaimC5 websocketNoConnHeaders) = false := by
  decide

/-- C5 (amended): the dispatcher routes to the TCP tunnel path exactly when
some `Connection` value contains `upgrade` (case-insensitively) and the
`Upgrade` header equals `tcp`; otherwise to the WebSocket path exactly when
some `Connection` value contains `upgrade` and the `Upgrade` header
case-insensitively equals `websocket`; otherwise it falls through to the
reverse proxy stage. -/
theorem dispatch_contract (h : Headers) : dispatch h = dispatchClaimC5Amended h := by
  cases hc : (h.getValues connectionKey).any (fun v => goContains (goToLower v) "upgrade") with
  | false =>
    simp [dispatch, dispatchClaimC5Amended, isTcpUpgrade, isWebSocketUpgrade, upgradeHeader, hc]
    decide
  | true =>
    simp [dispatch, dispatchClaimC5Amended, isTcpUpgrade, isWebSocketUpgrade, upgradeHeader, hc]

/-- C6: after the director runs, the target's `X-Forwarded-Proto` is
`https` when forcing is configured, is set from the inbound TLS state when
the source lacks the header, and is untouched otherwise; the target URL is
`http`, the source host, the raw request-target, and an empty query; and
the target carries no `X-CF-App-Instance` header. -/
theorem setupProxyRequest_contract (force : Bool) (source target : Request) :
    (setupProxyRequest force source target).headers.get xfpKey =
      (if force then "https"
       else if source.headers.get xfpKey = "" then (if source.tls then "https" else "http")
       else target.headers.get xfpKey) ∧
    (setupProxyRequest force source target).url =
      { scheme := "http", host := source.host, opaq := source.requestURI, rawQuery := "" } ∧
    (setupProxyRequest force source target).headers.getValues cfAppInstanceKey = [] := by
  refine ⟨?_, ?_, ?_⟩
  · by_cases hf : force
    · rw [show (setupProxyRequest force source target).headers =
          (target.headers.set xfpKey "https").del cfAppInstanceKey by simp [setupProxyRequest, hf]]
      rw [Headers.get_del_ne _ _ _ (by decide), Headers.get_set_self]
      simp [hf]
    · by_cases hs : source.headers.get xfpKey = ""
      · rw [show (setupProxyRequest force source target).headers =
            (target.headers.set xfpKey (if source.tls then "https" else "http")).del cfAppInstanceKey by
          simp [setupProxyRequest, hf, hs]]
        rw [Headers.get_del_ne _ _ _ (by decide), Headers.get_set_self]
        simp [hf, hs]
      · rw [show (setupProxyRequest force source target).headers =
            target.headers.del cfAppInstanceKey by simp [setupProxyRequest, hf, hs]]
        rw [Headers.get_del_ne _ _ _ (by decide)]
        simp [hf, hs]
  · simp [setupProxyRequest]
  · have : (setupProxyRequest force source target).headers =
        Headers.del (if force then target.headers.set xfpKey "https"
          else if source.headers.get xfpKey == "" then
            target.headers.set xfpKey (if source.tls then "https" else "http")
          else target.headers) cfAppInstanceKey := by
      by_cases hf : force
      · simp [setupProxyRequest, hf]
      · by_cases hs : source.headers.get xfpKey == ""
        · simp [setupProxyRequest, hf, hs]
        · simp [setupProxyRequest, hf, hs]
    rw [this, Headers.getValues_del_self]

/-- C7 counterexample: the bad-request capture increments the counter
`rejected_requests`; it does not increment a counter named `bad_request`. -/
theorem captureBadRequest_counterexample :
    captureBadRequest = ["rejected_requests"] ∧
    decide ("bad_request" ∈ captureBadRequest) = false := by
  decide

/-- C7 (amended): the counter incremented by the Reporter's bad-request
capture is named `rejected_requests`, and it is the only counter touched. -/
theorem captureBadRequest_contract :
    "rejected_requests" ∈ captureBadRequest ∧ captureBadRequest.length = 1 := by
  decide

/-- C8 counterexample: an endpoint whose `component` tag is the empty
string gets only `total_requests`; the `requests.<component>` counter the
claim promises (here `requests.`) is not incremented. -/
theorem captureRoutingRequest_counterexample :
    componentTag emptyComponentEndpoint = some "" ∧
    captureRoutingRequest emptyComponentEndpoint = ["total_requests"] ∧
    decide (("requests." ++ "") ∈ captureRoutingRequest emptyComponentEndpoint) = false := by
  decide

/-- C8 (amended): `CaptureRoutingRequest` always increments
`total_requests`; when the endpoint carries a non-empty `component` tag it
also increments `requests.<component>`, and additionally
`routed_app_requests` when that tag starts with `dea-`. -/
theorem captureRoutingRequest_contract (e : Endpoint) (c : String) :
    "total_requests" ∈ captureRoutingRequest e ∧
    (componentTag e = some c → 0 < c.length →
      ("requests." ++ c) ∈ captureRoutingRequest e ∧
      (goHasPre c "dea-" = true → "routed_app_requests" ∈ captureRoutingRequest e)) := by
  constructor
  · simp [captureRoutingRequest]
  · intro hc hlen
    cases hf : e.tags.find? (fun p => p.1 == "component") with
    | none => simp [componentTag, hf] at hc
    | some p =>
      have hp : p.2 = c := by simpa [componentTag, hf] using hc
      subst hp
      constructor
      · simp [captureRoutingRequest, hf, hlen]
      · intro hdea
        simp [captureRoutingRequest, hf, hlen, hdea]

/-- C8 witness: a `dea-` component endpoint gets both the per-component
and the routed-app counters. -/
theorem captureRoutingRequest_contract_witness :
    ("requests." ++ "dea-1") ∈ captureRoutingRequest deaEndpoint ∧
    "routed_app_requests" ∈ captureRoutingRequest deaEndpoint := by
  have h := (captureRoutingRequest_contract deaEndpoint "dea-1").2 (by decide) (by decide)
  exact ⟨h.1, h.2 (by decide)⟩

/-- C9: the response captures are total over any response including a nil
one; a status in 200–599 lands in the `<N>xx` bucket with `N` the status
divided by 100, anything else (and nil) lands in `xxx`, and the
unqualified counter is incremented in every case. -/
theorem captureResponse_contract (res : Option HTTPResponse) :
    "responses" ∈ captureRoutingResponse res ∧
    "responses.route_services" ∈ captureRouteServiceResponse res ∧
    (∀ r, res = some r → 200 ≤ r.statusCode → r.statusCode ≤ 599 →
      getResponseCounterName res = toString (r.statusCode.toNat / 100) ++ "xx" ∧
      ("responses." ++ toString (r.statusCode.toNat / 100) ++ "xx") ∈ captureRoutingResponse res ∧
      ("responses.route_services." ++ toString (r.statusCode.toNat / 100) ++ "xx")
        ∈ captureRouteServiceResponse res) ∧
    ((res = none ∨ ∃ r, res = some r ∧ (r.statusCode < 200 ∨ 599 < r.statusCode)) →
      getResponseCounterName res = "xxx" ∧
      "responses.xxx" ∈ captureRoutingResponse res ∧
      "responses.route_services.xxx" ∈ captureRouteServiceResponse res) := by
  refine ⟨by simp [captureRoutingResponse], by simp [captureRouteServiceResponse], ?_, ?_⟩
  · rintro r rfl h200 h599
    have h0 : (0 : Int) ≤ r.statusCode := by omega
    have hdiv : goDiv r.statusCode 100 = ((r.statusCode.toNat / 100 : Nat) : Int) := by
      rw [goDiv, if_pos h0]
    have hcond : 2 ≤ goDiv r.statusCode 100 ∧ goDiv r.statusCode 100 ≤ 5 := by
      rw [hdiv]
      omega
    have hname : getResponseCounterName (some r) = toString (r.statusCode.toNat / 100) ++ "xx" := by
      rw [getResponseCounterName_some, if_pos hcond, hdiv]
      rfl
    exact ⟨hname, by simp [captureRoutingResponse, hname, String.append_assoc],
      by simp [captureRouteServiceResponse, hname, String.append_assoc]⟩
  · intro hout
    have hname : getResponseCounterName res = "xxx" := by
      rcases hout with rfl | ⟨r, rfl, hr⟩
      · simp [getResponseCounterName]
      · by_cases h0 : (0 : Int) ≤ r.statusCode
        · have hdiv : goDiv r.statusCode 100 = ((r.statusCode.toNat / 100 : Nat) : Int) := by
            simp [goDiv, h0]
          have : ¬(2 ≤ goDiv r.statusCode 100 ∧ goDiv r.statusCode 100 ≤ 5) := by
            rw [hdiv]
            omega
          simp [getResponseCounterName, this]
        · have hdiv : goDiv r.statusCode 100 = -(((-r.statusCode).toNat / 100 : Nat) : Int) := by
            simp [goDiv, h0]
          have : ¬(2 ≤ goDiv r.statusCode 100 ∧ goDiv r.statusCode 100 ≤ 5) := by
            rw [hdiv]
            omega
          simp [getResponseCounterName, this]
    exact ⟨hname, by simp [captureRoutingResponse, hname],
      by simp [captureRouteServiceResponse, hname]⟩

/-- C9 witness: a 204 lands in the `2xx` buckets and a nil response lands
in the `xxx` buckets. -/
theorem captureResponse_contract_witness :
    getResponseCounterName (some ⟨204⟩) = "2xx" ∧ getResponseCounterName none = "xxx" := by
  constructor
  · have h := ((captureResponse_contract (some ⟨204⟩)).2.2.1 ⟨204⟩ rfl (by decide) (by decide)).1
    exact h.trans (by decide)
  · exact ((captureResponse_contract none).2.2.2 (Or.inl rfl)).1

/-- C10: `hostWithoutPort` truncates the `Host` value at the first `:`
(returning it unchanged when it has none), and on a bracketed IPv6 literal
`[::1]:8080` it returns `[`. -/
theorem hostWithoutPort_contract :
    (∀ host : List Char, hostWithoutPort host = host.takeWhile (fun c => !(c == ':'))) ∧
    (∀ host : List Char, ':' ∉ host → hostWithoutPort host = host) ∧
    hostWithoutPort ("[::1]:8080".toList) = "[".toList := by
  refine ⟨hostWithoutPort_eq_takeWhile, ?_, by decide⟩
  intro host hmem
  rw [hostWithoutPort_eq_takeWhile]
  induction host with
  | nil => rfl
  | cons a t ih =>
    have ha : ¬(a = ':') := fun h => hmem (h ▸ List.mem_cons_self a t)
    have ht := ih (fun h => hmem (List.mem_cons_of_mem a h))
    simp [List.takeWhile_cons, ha, ht]

/-- C10 witness: a host with no colon comes back unchanged. -/
theorem hostWithoutPort_contract_witness :
    hostWithoutPort ("myapp.com".toList) = "myapp.com".toList :=
  hostWithoutPort_contract.2.1 _ (by decide)

/-- C1: in backend mode, if every attempt fails with a retriable error the
iterator's `Next` is called exactly 3 times and an error is returned; if
the first `N < 3` attempts fail with a retriable error and attempt `N+1`
succeeds, `Next` is called exactly `N+1` times and the successful response
is returned unchanged. -/
theorem backend_retry_contract :
    (∀ (iter : Nat → Option Endpoint) (transport : Nat → Except TransportErr HTTPResponse)
        (req : Headers),
      (∀ n, n < 3 → (iter n).isSome = true) →
      (∀ n, n < 3 → ∃ e, transport n = Except.error e ∧ retriable e = true) →
      (proxyRoundTrip true iter transport req).nextCalls = 3 ∧
      (proxyRoundTrip true iter transport req).response = none ∧
      ∃ e, (proxyRoundTrip true iter transport req).rtError =
        some (RoundTripError.transport e) ∧ retriable e = true) ∧
    (∀ (iter : Nat → Option Endpoint) (transport : Nat → Except TransportErr HTTPResponse)
        (req : Headers) (resp : HTTPResponse) (N : Nat),
      N < 3 →
      (∀ n, n ≤ N → (iter n).isSome = true) →
      (∀ n, n < N → ∃ e, transport n = Except.error e ∧ retriable e = true) →
      transport N = Except.ok resp →
      (proxyRoundTrip true iter transport req).nextCalls = N + 1 ∧
      (proxyRoundTrip true iter transport req).response = some resp ∧
      (proxyRoundTrip true iter transport req).rtError = none) := by
  constructor
  · intro iter transport req hIter hTr
    obtain ⟨e0, he0, hr0⟩ := hTr 0 (by omega)
    obtain ⟨e1, he1, hr1⟩ := hTr 1 (by omega)
    obtain ⟨e2, he2, hr2⟩ := hTr 2 (by omega)
    obtain ⟨p0, hp0⟩ := Option.isSome_iff_exists.mp (hIter 0 (by omega))
    obtain ⟨p1, hp1⟩ := Option.isSome_iff_exists.mp (hIter 1 (by omega))
    obtain ⟨p2, hp2⟩ := Option.isSome_iff_exists.mp (hIter 2 (by omega))
    refine ⟨?_, ?_, e2, ?_, hr2⟩ <;>
      simp [proxyRoundTrip, backendRoundTrip, maxRetries, backendLoop,
        hp0, hp1, hp2, he0, he1, he2, hr0, hr1, hr2]
  · intro iter transport req resp N hN hIter hTr hok
    interval_cases N
    · obtain ⟨p0, hp0⟩ := Option.isSome_iff_exists.mp (hIter 0 (by omega))
      refine ⟨?_, ?_, ?_⟩ <;>
        simp [proxyRoundTrip, backendRoundTrip, maxRetries, backendLoop, hp0, hok]
    · obtain ⟨e0, he0, hr0⟩ := hTr 0 (by omega)
      obtain ⟨p0, hp0⟩ := Option.isSome_iff_exists.mp (hIter 0 (by omega))
      obtain ⟨p1, hp1⟩ := Option.isSome_iff_exists.mp (hIter 1 (by omega))
      refine ⟨?_, ?_, ?_⟩ <;>
        simp [proxyRoundTrip, backendRoundTrip, maxRetries, backendLoop, hp0, hp1, he0, hr0, hok]
    · obtain ⟨e0, he0, hr0⟩ := hTr 0 (by omega)
      obtain ⟨e1, he1, hr1⟩ := hTr 1 (by omega)
      obtain ⟨p0, hp0⟩ := Option.isSome_iff_exists.mp (hIter 0 (by omega))
      obtain ⟨p1, hp1⟩ := Option.isSome_iff_exists.mp (hIter 1 (by omega))
      obtain ⟨p2, hp2⟩ := Option.isSome_iff_exists.mp (hIter 2 (by omega))
      refine ⟨?_, ?_, ?_⟩ <;>
        simp [proxyRoundTrip, backendRoundTrip, maxRetries, backendLoop,
          hp0, hp1, hp2, he0, he1, hr0, hr1, hok]

/-- C1 witness: with a transport that always dials out unsuccessfully the
iterator is advanced 3 times; when only the first attempt fails it is
advanced twice. -/
theorem backend_retry_contract_witness :
    (proxyRoundTrip true (fun _ => some bareEndpoint)
      (fun _ => Except.error TransportErr.dialError) ⟨[]⟩).nextCalls = 3 ∧
    (proxyRoundTrip true (fun _ => some bareEndpoint)
      (fun n => if n = 0 then Except.error TransportErr.connectionReset
                else Except.ok ⟨200⟩) ⟨[]⟩).nextCalls = 2 := by
  constructor
  · exact (backend_retry_contract.1 (fun _ => some bareEndpoint)
      (fun _ => Except.error TransportErr.dialError) ⟨[]⟩ (fun n _ => rfl)
      (fun n _ => ⟨TransportErr.dialError, rfl, rfl⟩)).1
  · refine (backend_retry_contract.2 (fun _ => some bareEndpoint)
      (fun n => if n = 0 then Except.error TransportErr.connectionReset
                else Except.ok ⟨200⟩) ⟨[]⟩ ⟨200⟩ 1 (by omega) (fun n _ => rfl) ?_ rfl).1
    intro n hn
    have hn0 : n = 0 := by omega
    subst hn0
    exact ⟨TransportErr.connectionReset, rfl, rfl⟩

/-- C2: in route-service mode the iterator is never advanced and the
request — in particular its `X-CF-Forwarded-Url` header — is returned
exactly as it was, for every sequence of transport outcomes within the
3-attempt retry budget. -/
theorem routeService_preserves_request (iter : Nat → Option Endpoint)
    (transport : Nat → Except TransportErr HTTPResponse) (req : Headers) :
    (proxyRoundTrip false iter transport req).nextCalls = 0 ∧
    (proxyRoundTrip false iter transport req).finalRequest.get forwardedUrlKey =
      req.get forwardedUrlKey ∧
    (proxyRoundTrip false iter transport req).finalRequest = req := by
  have h := routeServiceLoop_invariant transport req maxRetries 0
  refine ⟨?_, ?_, ?_⟩
  · simpa [proxyRoundTrip, routeServiceRoundTrip] using h.1
  · have hreq : (proxyRoundTrip false iter transport req).finalRequest = req := by
      simpa [proxyRoundTrip, routeServiceRoundTrip] using h.2.2
    rw [hreq]
  · simpa [proxyRoundTrip, routeServiceRoundTrip] using h.2.2

/-- C3: in backend mode, when the iterator yields no endpoint on the first
attempt, `RoundTrip` returns the `NoEndpointsAvailable` sentinel and no
response. -/
theorem backend_empty_pool (iter : Nat → Option Endpoint)
    (transport : Nat → Except TransportErr HTTPResponse) (req : Headers)
    (h : iter 0 = none) :
    (proxyRoundTrip true iter transport req).response = none ∧
    (proxyRoundTrip true iter transport req).rtError = some RoundTripError.noEndpoints := by
  simp [proxyRoundTrip, backendRoundTrip, maxRetries, backendLoop, h]

/-- C3 witness: the empty-pool iterator produces the sentinel. -/
theorem backend_empty_pool_witness :
    (proxyRoundTrip true (fun _ => none) (fun _ => Except.ok ⟨200⟩) ⟨[]⟩).response = none ∧
    (proxyRoundTrip true (fun _ => none) (fun _ => Except.ok ⟨200⟩) ⟨[]⟩).rtError =
      some RoundTripError.noEndpoints :=
  backend_empty_pool _ _ _ rfl

end Gorouter
